import Mathlib

/-! Shallow embedding of `src/main.py` (DCA strategy over the Alpaca trading API).

The brokerage client is an external collaborator: its three operations
(`get_clock`, `get_account`, `submit_order`) are modelled as supplied
`Except`-valued responses (`.error e` models the call raising an exception
whose string representation is `e`).  All observable side effects of the
program — log lines, broker queries, order submissions — are recorded in an
explicit event trace.  Decimal money amounts are modelled as `Rat`.
-/

namespace DCA

inductive LogLevel
  | info
  | warning
  | error
deriving DecidableEq, Repr

inductive OrderSide
  | buy
  | sell
deriving DecidableEq, Repr

inductive TimeInForce
  | day
  | gtc
deriving DecidableEq, Repr

/-- The clock record returned by `trading_client.get_clock()`.  `next_open`
holds the timestamp already rendered by `strftime` (string formatting of
datetimes is external to the program logic). -/
structure Clock where
  is_open : Bool
  next_open : String
deriving DecidableEq, Repr

/-- The account record returned by `trading_client.get_account()`. -/
structure Account where
  id : String
  cash : Rat
  portfolio_value : Rat
deriving DecidableEq, Repr

/-- `MarketOrderRequest(symbol=…, notional=…, side=…, time_in_force=…)`. -/
structure MarketOrderRequest where
  symbol : String
  notional : Rat
  side : OrderSide
  time_in_force : TimeInForce
deriving DecidableEq, Repr

/-- The order record returned by a successful `submit_order`. -/
structure Order where
  id : String
deriving DecidableEq, Repr

/-- One observable effect of a cycle. -/
inductive Event
  | log (level : LogLevel) (msg : String)
  | clockQuery
  | accountQuery
  | submission (req : MarketOrderRequest)
deriving DecidableEq, Repr

/-- The ambient trading client: each field gives the outcome of the
corresponding blocking call, `.error e` meaning the call raises. -/
structure Broker where
  get_clock : Except String Clock
  get_account : Except String Account
  submit_order : MarketOrderRequest → Except String Order

-- Configuration (src/main.py lines 42-44)
def SYMBOL : String := "SPY"

def DAILY_INVESTMENT : Rat := 100

/-- Two-digit zero padding. -/
def pad2 (n : Nat) : String :=
  if n < 10 then "0" ++ toString n else toString n

/-- Python's `f"{x:.2f}"` on the nonnegative decimal amounts this program
handles: render with exactly two digits after the point, rounding to the
nearest cent.  `(q.num * 200 + q.den) / (2 * q.den)` is the integer nearest
to `q * 100` (for nonnegative `q`, half-cents rounding up). -/
def fmt2 (q : Rat) : String :=
  let cents : Nat := ((q.num * 200 + q.den) / (2 * (q.den : Int))).toNat
  toString (cents / 100) ++ "." ++ pad2 (cents % 100)

/-- Python's `str(100.0)`, as interpolated by `f"Buying ${DAILY_INVESTMENT} …"`. -/
def DAILY_INVESTMENT_str : String := "100.0"

/-- `check_market_hours` (src/main.py lines 47-56): query the clock; when
closed, log the next-open timestamp and return false. -/
def check_market_hours (c : Broker) : Except String Bool × List Event :=
  match c.get_clock with
  | .error e => (.error e, [.clockQuery])
  | .ok clock =>
    if !clock.is_open then
      (.ok false,
       [.clockQuery,
        .log .info ("Market is closed. Next market open: " ++ clock.next_open)])
    else
      (.ok true, [.clockQuery])

/-- `get_account_info` (src/main.py lines 59-66): query the account, log id,
cash and portfolio value, return the cash balance. -/
def get_account_info (c : Broker) : Except String Rat × List Event :=
  match c.get_account with
  | .error e => (.error e, [.accountQuery])
  | .ok account =>
    (.ok account.cash,
     [.accountQuery,
      .log .info ("Account ID: " ++ account.id),
      .log .info ("Cash Balance: $" ++ fmt2 account.cash),
      .log .info ("Portfolio Value: $" ++ fmt2 account.portfolio_value)])

/-- The order constructed at src/main.py lines 82-87. -/
def market_order_data : MarketOrderRequest :=
  { symbol := SYMBOL
    notional := DAILY_INVESTMENT
    side := .buy
    time_in_force := .day }

/-- `place_order` (src/main.py lines 69-95): market-hours gate, account gate,
then submission; a submission error is caught and logged, while errors raised
by the two queries propagate. -/
def place_order (c : Broker) : Except String Unit × List Event :=
  match check_market_hours c with
  | (.error e, t) => (.error e, t)
  | (.ok false, t) =>
      (.ok (), t ++ [.log .info ("Skipping order as market is closed.")])
  | (.ok true, t) =>
    match get_account_info c with
    | (.error e, t2) => (.error e, t ++ t2)
    | (.ok cash_balance, t2) =>
      if cash_balance < DAILY_INVESTMENT then
        (.ok (),
         t ++ t2 ++
           [.log .warning
              ("Insufficient funds. Available cash: $" ++ fmt2 cash_balance)])
      else
        match c.submit_order market_order_data with
        | .ok order =>
          (.ok (),
           t ++ t2 ++
             [.submission market_order_data,
              .log .info ("Order placed successfully - Order ID: " ++ order.id),
              .log .info ("Buying $" ++ DAILY_INVESTMENT_str ++ " of " ++ SYMBOL)])
        | .error e =>
          (.ok (),
           t ++ t2 ++
             [.submission market_order_data,
              .log .error ("Error placing order: " ++ e)])

/-- `run_dca_strategy` (src/main.py lines 98-105): run one cycle, catching and
logging any exception; always returns normally, yielding only the trace. -/
def run_dca_strategy (c : Broker) : List Event :=
  let t0 : List Event := [.log .info ("Running DCA strategy...")]
  match place_order c with
  | (.ok _, t) => t0 ++ t ++ [.log .info ("DCA execution completed")]
  | (.error e, t) => t0 ++ t ++ [.log .error ("Error executing DCA strategy: " ++ e)]

/-- The fixed wall-clock time of the single registered daily trigger
(src/main.py line 111). -/
def SCHEDULE_TIME : String := "09:35"

/-- The polling loop of `schedule_dca` (src/main.py lines 118-120), unrolled
for `n` iterations.  Each iteration calls `schedule.run_pending()` and then
`time.sleep(60)`.  `fire i` abstracts the external `schedule` library
reporting the daily trigger pending at iteration `i`; `brokers i` is the
broker behaviour seen by the cycle run at iteration `i`.  Returns the list of
cycle traces run so far and the total seconds slept. -/
def run_loop (brokers : Nat → Broker) (fire : Nat → Bool) :
    Nat → List (List Event) × Nat
  | 0 => ([], 0)
  | n + 1 =>
    let p := run_loop brokers fire n
    ((if fire n then p.1 ++ [run_dca_strategy (brokers n)] else p.1), p.2 + 60)

/-- The observable behaviour of `schedule_dca` (src/main.py lines 108-120)
after `n` loop iterations: the registered triggers, the one synchronous
startup run, the cycle traces produced inside the loop, and the seconds
slept. -/
structure SchedTrace where
  jobs : List String
  startup_run : List Event
  loop_runs : List (List Event)
  slept : Nat

/-- `schedule_dca` (src/main.py lines 108-120): register one daily job at
`SCHEDULE_TIME`, run the strategy once immediately, then poll forever. -/
def schedule_dca (startup_broker : Broker) (brokers : Nat → Broker)
    (fire : Nat → Bool) (n : Nat) : SchedTrace :=
  let p := run_loop brokers fire n
  { jobs := [SCHEDULE_TIME]
    startup_run := run_dca_strategy startup_broker
    loop_runs := p.1
    slept := p.2 }

/-- The environment visible to the process after `load_dotenv()`. -/
structure Env where
  ALPACA_API_KEY : Option String
  ALPACA_API_SECRET : Option String
  IS_PAPER : Option String

/-- The `TradingClient(api_key, api_secret, paper=is_paper)` constructed at
src/main.py line 40. -/
structure TradingClient where
  api_key : String
  api_secret : String
  paper : Bool
deriving DecidableEq, Repr

/-- Outcome of module initialisation: either `exit(1)` or a running process
holding the constructed client. -/
inductive Startup
  | exited (code : Nat)
  | running (client : TradingClient)
deriving DecidableEq, Repr

/-- Python truthiness of an `os.getenv` result: `None` and `""` are falsy. -/
def truthy : Option String → Bool
  | none => false
  | some s => s != ""

/-- Python's `str.lower()` on the ASCII strings this program compares. -/
def pyLower (s : String) : String :=
  String.mk (s.data.map Char.toLower)

/-- `is_paper` (src/main.py line 33):
`os.getenv('IS_PAPER', 'true').lower() == 'true'`. -/
def is_paper (env : Env) : Bool :=
  pyLower (env.IS_PAPER.getD "true") == "true"

/-- Module initialisation (src/main.py lines 31-40): read credentials, exit
with code 1 when either is falsy, otherwise construct the trading client. -/
def startup (env : Env) : Startup :=
  let api_key := env.ALPACA_API_KEY
  let api_secret := env.ALPACA_API_SECRET
  if !truthy api_key || !truthy api_secret then
    .exited 1
  else
    .running
      { api_key := api_key.getD ""
        api_secret := api_secret.getD ""
        paper := is_paper env }

/-- The order submissions recorded in a trace. -/
def submissions (t : List Event) : List MarketOrderRequest :=
  t.filterMap fun e =>
    match e with
    | .submission req => some req
    | _ => none

/-- The number of account queries recorded in a trace. -/
def accountQueries (t : List Event) : Nat :=
  (t.filter fun e => e == Event.accountQuery).length

/-! Helper lemmas about the individual source functions -/

theorem check_market_hours_open (c : Broker) (clock : Clock)
    (hclock : c.get_clock = .ok clock) (hopen : clock.is_open = true) :
    check_market_hours c = (.ok true, [.clockQuery]) := by
  unfold check_market_hours
  rw [hclock]
  simp [hopen]

theorem check_market_hours_closed (c : Broker) (clock : Clock)
    (hclock : c.get_clock = .ok clock) (hopen : clock.is_open = false) :
    check_market_hours c =
      (.ok false,
       [.clockQuery,
        .log .info ("Market is closed. Next market open: " ++ clock.next_open)]) := by
  unfold check_market_hours
  rw [hclock]
  simp [hopen]

theorem get_account_info_ok (c : Broker) (account : Account)
    (hacct : c.get_account = .ok account) :
    get_account_info c =
      (.ok account.cash,
       [.accountQuery,
        .log .info ("Account ID: " ++ account.id),
        .log .info ("Cash Balance: $" ++ fmt2 account.cash),
        .log .info ("Portfolio Value: $" ++ fmt2 account.portfolio_value)]) := by
  unfold get_account_info
  rw [hacct]

theorem place_order_closed (c : Broker) (clock : Clock)
    (hclock : c.get_clock = .ok clock) (hopen : clock.is_open = false) :
    place_order c =
      (.ok (),
       [.clockQuery,
        .log .info ("Market is closed. Next market open: " ++ clock.next_open),
        .log .info ("Skipping order as market is closed.")]) := by
  unfold place_order
  rw [check_market_hours_closed c clock hclock hopen]
  rfl

theorem place_order_insufficient (c : Broker) (clock : Clock) (account : Account)
    (hclock : c.get_clock = .ok clock) (hopen : clock.is_open = true)
    (hacct : c.get_account = .ok account)
    (hcash : account.cash < DAILY_INVESTMENT) :
    place_order c =
      (.ok (),
       [.clockQuery, .accountQuery,
        .log .info ("Account ID: " ++ account.id),
        .log .info ("Cash Balance: $" ++ fmt2 account.cash),
        .log .info ("Portfolio Value: $" ++ fmt2 account.portfolio_value),
        .log .warning ("Insufficient funds. Available cash: $" ++ fmt2 account.cash)]) := by
  unfold place_order
  rw [check_market_hours_open c clock hclock hopen]
  simp only [get_account_info_ok c account hacct, if_pos hcash]
  rfl

theorem place_order_submit_ok (c : Broker) (clock : Clock) (account : Account)
    (order : Order)
    (hclock : c.get_clock = .ok clock) (hopen : clock.is_open = true)
    (hacct : c.get_account = .ok account)
    (hcash : ¬ account.cash < DAILY_INVESTMENT)
    (hsub : c.submit_order market_order_data = .ok order) :
    place_order c =
      (.ok (),
       [.clockQuery, .accountQuery,
        .log .info ("Account ID: " ++ account.id),
        .log .info ("Cash Balance: $" ++ fmt2 account.cash),
        .log .info ("Portfolio Value: $" ++ fmt2 account.portfolio_value),
        .submission market_order_data,
        .log .info ("Order placed successfully - Order ID: " ++ order.id),
        .log .info ("Buying $" ++ DAILY_INVESTMENT_str ++ " of " ++ SYMBOL)]) := by
  unfold place_order
  rw [check_market_hours_open c clock hclock hopen]
  simp only [get_account_info_ok c account hacct, if_neg hcash, hsub]
  rfl

theorem place_order_submit_raise (c : Broker) (clock : Clock) (account : Account)
    (e : String)
    (hclock : c.get_clock = .ok clock) (hopen : clock.is_open = true)
    (hacct : c.get_account = .ok account)
    (hcash : ¬ account.cash < DAILY_INVESTMENT)
    (hsub : c.submit_order market_order_data = .error e) :
    place_order c =
      (.ok (),
       [.clockQuery, .accountQuery,
        .log .info ("Account ID: " ++ account.id),
        .log .info ("Cash Balance: $" ++ fmt2 account.cash),
        .log .info ("Portfolio Value: $" ++ fmt2 account.portfolio_value),
        .submission market_order_data,
        .log .error ("Error placing order: " ++ e)]) := by
  unfold place_order
  rw [check_market_hours_open c clock hclock hopen]
  simp only [get_account_info_ok c account hacct, if_neg hcash, hsub]
  rfl

theorem run_loop_eq (brokers : Nat → Broker) (fire : Nat → Bool) (n : Nat) :
    run_loop brokers fire n =
      (((List.range n).filter fire).map (fun i => run_dca_strategy (brokers i)),
       60 * n) := by
  induction n with
  | zero => rfl
  | succ n ih =>
    by_cases h : fire n <;>
      simp [run_loop, ih, List.range_succ, h, Nat.mul_succ]

/-! Concrete fixtures used by the witness theorems -/

def clockOpen : Clock :=
  { is_open := true, next_open := "2026-10-13 09:30:00" }

def clockClosed : Clock :=
  { is_open := false, next_open := "2026-10-13 09:30:00" }

def acct500 : Account :=
  { id := "acct-1", cash := 500, portfolio_value := 10000 }

def acct100 : Account :=
  { id := "acct-1", cash := 100, portfolio_value := 10000 }

def acct50 : Account :=
  { id := "acct-1", cash := 50, portfolio_value := 10000 }

def okSubmit : MarketOrderRequest → Except String Order :=
  fun _ => .ok { id := "ord-1" }

def failSubmit : MarketOrderRequest → Except String Order :=
  fun _ => .error "connection error"

def broker500 : Broker :=
  { get_clock := .ok clockOpen, get_account := .ok acct500, submit_order := okSubmit }

def broker100 : Broker :=
  { get_clock := .ok clockOpen, get_account := .ok acct100, submit_order := okSubmit }

def broker50 : Broker :=
  { get_clock := .ok clockOpen, get_account := .ok acct50, submit_order := okSubmit }

def brokerClosed : Broker :=
  { get_clock := .ok clockClosed, get_account := .ok acct500, submit_order := okSubmit }

def brokerSubmitFail : Broker :=
  { get_clock := .ok clockOpen, get_account := .ok acct500, submit_order := failSubmit }

def brokerClockFail : Broker :=
  { get_clock := .error "clock query failed", get_account := .ok acct500,
    submit_order := okSubmit }

/-! The claims, one theorem per claim. -/

/-- C1: in any cycle where the market clock reports open and the cash balance
is at least the configured daily amount, `place_order` performs exactly one
order submission, and the submitted order has notional 100, symbol "SPY",
side buy and time_in_force day. -/
theorem C1_single_submission (c : Broker) (clock : Clock) (account : Account)
    (hclock : c.get_clock = .ok clock) (hopen : clock.is_open = true)
    (hacct : c.get_account = .ok account)
    (hcash : DAILY_INVESTMENT ≤ account.cash) :
    submissions (place_order c).2 =
      [{ symbol := "SPY", notional := 100, side := .buy, time_in_force := .day }] := by
  have hnl : ¬ account.cash < DAILY_INVESTMENT := not_lt.mpr hcash
  cases hsub : c.submit_order market_order_data with
  | ok order =>
    rw [place_order_submit_ok c clock account order hclock hopen hacct hnl hsub]
    simp [submissions, market_order_data, SYMBOL, DAILY_INVESTMENT]
  | error e =>
    rw [place_order_submit_raise c clock account e hclock hopen hacct hnl hsub]
    simp [submissions, market_order_data, SYMBOL, DAILY_INVESTMENT]

/-- Witness for C1, with market open and cash 500. -/
theorem C1_witness :
    broker500.get_clock = .ok clockOpen ∧
    clockOpen.is_open = true ∧
    broker500.get_account = .ok acct500 ∧
    DAILY_INVESTMENT ≤ acct500.cash ∧
    submissions (place_order broker500).2 =
      [{ symbol := "SPY", notional := 100, side := .buy, time_in_force := .day }] :=
  ⟨rfl, rfl, rfl, by decide,
   C1_single_submission broker500 clockOpen acct500 rfl rfl rfl (by decide)⟩

/-- C2: in any cycle where the market clock reports closed, no order
submission occurs and the clock's next-open timestamp is logged. -/
theorem C2_closed_no_submission (c : Broker) (clock : Clock)
    (hclock : c.get_clock = .ok clock) (hopen : clock.is_open = false) :
    submissions (place_order c).2 = [] ∧
    Event.log .info ("Market is closed. Next market open: " ++ clock.next_open)
      ∈ (place_order c).2 := by
  rw [place_order_closed c clock hclock hopen]
  simp [submissions]

/-- Witness for C2, with the clock reporting closed. -/
theorem C2_witness :
    brokerClosed.get_clock = .ok clockClosed ∧
    clockClosed.is_open = false ∧
    (submissions (place_order brokerClosed).2 = [] ∧
     Event.log .info ("Market is closed. Next market open: " ++ clockClosed.next_open)
       ∈ (place_order brokerClosed).2) :=
  ⟨rfl, rfl, C2_closed_no_submission brokerClosed clockClosed rfl rfl⟩

/-- C3: in any cycle where the market is open and the cash balance is
strictly below the daily amount, no order submission occurs and a warning
containing the formatted cash balance is logged. -/
theorem C3_insufficient_funds (c : Broker) (clock : Clock) (account : Account)
    (hclock : c.get_clock = .ok clock) (hopen : clock.is_open = true)
    (hacct : c.get_account = .ok account)
    (hcash : account.cash < DAILY_INVESTMENT) :
    submissions (place_order c).2 = [] ∧
    Event.log .warning ("Insufficient funds. Available cash: $" ++ fmt2 account.cash)
      ∈ (place_order c).2 := by
  rw [place_order_insufficient c clock account hclock hopen hacct hcash]
  simp [submissions]

/-- Witness for C3, with market open and cash 50: the logged warning renders
the balance as "50.00". -/
theorem C3_witness :
    broker50.get_clock = .ok clockOpen ∧
    clockOpen.is_open = true ∧
    broker50.get_account = .ok acct50 ∧
    acct50.cash < DAILY_INVESTMENT ∧
    fmt2 acct50.cash = "50.00" ∧
    (submissions (place_order broker50).2 = [] ∧
     Event.log .warning ("Insufficient funds. Available cash: $" ++ fmt2 acct50.cash)
       ∈ (place_order broker50).2) :=
  ⟨rfl, rfl, rfl, by decide, by decide,
   C3_insufficient_funds broker50 clockOpen acct50 rfl rfl rfl (by decide)⟩

/-- C4: when the submission call raises, the error is caught inside
`place_order` and logged at error severity, `place_order` returns normally,
the cycle completes (the runner logs completion), and a later scheduled cycle
still executes even with every cycle using the failing broker. -/
theorem C4_submit_error_swallowed (c : Broker) (clock : Clock)
    (account : Account) (e : String)
    (hclock : c.get_clock = .ok clock) (hopen : clock.is_open = true)
    (hacct : c.get_account = .ok account)
    (hcash : DAILY_INVESTMENT ≤ account.cash)
    (hsub : c.submit_order market_order_data = .error e) :
    (place_order c).1 = .ok () ∧
    Event.log .error ("Error placing order: " ++ e) ∈ (place_order c).2 ∧
    run_dca_strategy c =
      [Event.log .info ("Running DCA strategy...")] ++ (place_order c).2 ++
        [Event.log .info ("DCA execution completed")] ∧
    ∀ (fire : Nat → Bool) (n : Nat), fire n = true →
      run_dca_strategy c ∈ (run_loop (fun _ => c) fire (n + 1)).1 := by
  have hnl : ¬ account.cash < DAILY_INVESTMENT := not_lt.mpr hcash
  have hpo := place_order_submit_raise c clock account e hclock hopen hacct hnl hsub
  refine ⟨by rw [hpo], by rw [hpo]; simp, ?_, ?_⟩
  · unfold run_dca_strategy
    rw [hpo]
  · intro fire n hfire
    simp [run_loop, hfire]

/-- Witness for C4: market open, cash 500, submission raising
"connection error"; the later cycle is iteration 0 with the trigger firing. -/
theorem C4_witness :
    brokerSubmitFail.get_clock = .ok clockOpen ∧
    clockOpen.is_open = true ∧
    brokerSubmitFail.get_account = .ok acct500 ∧
    DAILY_INVESTMENT ≤ acct500.cash ∧
    brokerSubmitFail.submit_order market_order_data = .error "connection error" ∧
    ((place_order brokerSubmitFail).1 = .ok () ∧
     Event.log .error ("Error placing order: " ++ "connection error")
       ∈ (place_order brokerSubmitFail).2 ∧
     run_dca_strategy brokerSubmitFail =
       [Event.log .info ("Running DCA strategy...")] ++
         (place_order brokerSubmitFail).2 ++
         [Event.log .info ("DCA execution completed")] ∧
     run_dca_strategy brokerSubmitFail
       ∈ (run_loop (fun _ => brokerSubmitFail) (fun _ => true) 1).1) := by
  have h := C4_submit_error_swallowed brokerSubmitFail clockOpen acct500
    "connection error" rfl rfl rfl (by decide) rfl
  exact ⟨rfl, rfl, rfl, by decide, rfl,
    h.1, h.2.1, h.2.2.1, h.2.2.2 (fun _ => true) 0 rfl⟩

/-- C5: any exception propagating out of a cycle (for example from the clock
or account query) is caught by `run_dca_strategy`, which logs it and returns
a trace; and the number of loop runs performed by the scheduler depends only
on the trigger firings, never on any cycle's broker behaviour. -/
theorem C5_cycle_error_contained (c : Broker) (e : String) (t : List Event)
    (h : place_order c = (.error e, t)) :
    run_dca_strategy c =
      [Event.log .info ("Running DCA strategy...")] ++ t ++
        [Event.log .error ("Error executing DCA strategy: " ++ e)] ∧
    ∀ (brokers : Nat → Broker) (fire : Nat → Bool) (n : Nat),
      (run_loop brokers fire n).1.length = ((List.range n).filter fire).length := by
  constructor
  · unfold run_dca_strategy
    rw [h]
  · intro brokers fire n
    rw [run_loop_eq]
    simp

/-- Witness for C5: the clock query raises; two loop iterations with the
trigger always firing still perform two runs with every cycle failing. -/
theorem C5_witness :
    place_order brokerClockFail = (.error "clock query failed", [.clockQuery]) ∧
    (run_dca_strategy brokerClockFail =
       [Event.log .info ("Running DCA strategy...")] ++ [.clockQuery] ++
         [Event.log .error ("Error executing DCA strategy: " ++ "clock query failed")] ∧
     (run_loop (fun _ => brokerClockFail) (fun _ => true) 2).1.length =
       ((List.range 2).filter (fun _ => true)).length) := by
  have h := C5_cycle_error_contained brokerClockFail "clock query failed"
    [.clockQuery] rfl
  exact ⟨rfl, h.1, h.2 (fun _ => brokerClockFail) (fun _ => true) 2⟩

/-- C6: when either credential is absent from the environment, module
initialisation exits with status 1; no trading client is constructed, since
a client exists only in the `running` outcome. -/
theorem C6_missing_credentials_exit (env : Env)
    (h : env.ALPACA_API_KEY = none ∨ env.ALPACA_API_SECRET = none) :
    startup env = .exited 1 := by
  unfold startup
  rcases h with h | h <;> simp [h, truthy]

/-- Witness for C6: the secret is present but the key is missing. -/
theorem C6_witness :
    ({ ALPACA_API_KEY := none, ALPACA_API_SECRET := some "s", IS_PAPER := none } :
        Env).ALPACA_API_KEY = none ∧
    startup { ALPACA_API_KEY := none, ALPACA_API_SECRET := some "s", IS_PAPER := none } =
      .exited 1 :=
  ⟨rfl, C6_missing_credentials_exit _ (Or.inl rfl)⟩

/-- Python's `str.lower()` agrees with Lean's `String.toLower`. -/
theorem pyLower_eq_toLower (s : String) : pyLower s = s.toLower := by
  unfold pyLower String.toLower
  rw [String.map_eq]

/-- C7: the effective mode is paper exactly when `IS_PAPER` is unset
(defaulting to true) or set to a case-insensitive match of "true"; every
other value resolves to live mode. -/
theorem C7_paper_mode_iff (env : Env) :
    is_paper env = true ↔
      env.IS_PAPER = none ∨
        ∃ s, env.IS_PAPER = some s ∧ s.toLower = "true" := by
  cases h : env.IS_PAPER with
  | none =>
    have hp : is_paper env = true := by
      simp only [is_paper, h, Option.getD_none]
      decide
    simp [hp, h]
  | some s =>
    simp only [is_paper, h, Option.getD_some, beq_iff_eq, pyLower_eq_toLower]
    constructor
    · intro hs
      exact Or.inr ⟨s, rfl, hs⟩
    · rintro (hc | ⟨s', hs', hl⟩)
      · exact absurd hc (by simp)
      · cases Option.some.inj hs'
        exact hl

/-- C8: `schedule_dca` registers a single daily trigger at the fixed time
"09:35", runs the strategy exactly once synchronously at startup
independently of the trigger firings, thereafter runs it exactly at the
trigger firings, and sleeps 60 seconds per loop iteration. -/
theorem C8_scheduler_shape (startup_broker : Broker) (brokers : Nat → Broker)
    (fire : Nat → Bool) (n : Nat) :
    (schedule_dca startup_broker brokers fire n).jobs = [SCHEDULE_TIME] ∧
    (schedule_dca startup_broker brokers fire n).startup_run =
      run_dca_strategy startup_broker ∧
    (schedule_dca startup_broker brokers fire n).loop_runs =
      ((List.range n).filter fire).map (fun i => run_dca_strategy (brokers i)) ∧
    (schedule_dca startup_broker brokers fire n).slept = 60 * n := by
  refine ⟨rfl, rfl, ?_, ?_⟩ <;>
    simp [schedule_dca, run_loop_eq]

/-- C9: at the boundary where the cash balance equals the daily amount, the
strict comparison lets the order through: the insufficient-funds warning is
not logged and exactly one submission occurs. -/
theorem C9_boundary_submits (c : Broker) (clock : Clock) (account : Account)
    (hclock : c.get_clock = .ok clock) (hopen : clock.is_open = true)
    (hacct : c.get_account = .ok account)
    (hcash : account.cash = DAILY_INVESTMENT) :
    submissions (place_order c).2 = [market_order_data] ∧
    ∀ msg, Event.log .warning msg ∉ (place_order c).2 := by
  have hnl : ¬ account.cash < DAILY_INVESTMENT := by
    rw [hcash]
    exact lt_irrefl _
  cases hsub : c.submit_order market_order_data with
  | ok order =>
    rw [place_order_submit_ok c clock account order hclock hopen hacct hnl hsub]
    refine ⟨by simp [submissions], ?_⟩
    intro msg
    simp
  | error e =>
    rw [place_order_submit_raise c clock account e hclock hopen hacct hnl hsub]
    refine ⟨by simp [submissions], ?_⟩
    intro msg
    simp

/-- Witness for C9: market open with cash exactly 100. -/
theorem C9_witness :
    broker100.get_clock = .ok clockOpen ∧
    clockOpen.is_open = true ∧
    broker100.get_account = .ok acct100 ∧
    acct100.cash = DAILY_INVESTMENT ∧
    (submissions (place_order broker100).2 = [market_order_data] ∧
     Event.log .warning ("Insufficient funds. Available cash: $" ++ fmt2 acct100.cash)
       ∉ (place_order broker100).2) := by
  have h := C9_boundary_submits broker100 clockOpen acct100 rfl rfl rfl (by decide)
  exact ⟨rfl, rfl, rfl, by decide,
    h.1, h.2 ("Insufficient funds. Available cash: $" ++ fmt2 acct100.cash)⟩

/-- C10: when the clock reports closed, the account query is never performed:
the trace holds no account query, and the outcome of `place_order` does not
depend on the account-query behaviour at all. -/
theorem C10_no_account_query_when_closed (c : Broker) (clock : Clock)
    (hclock : c.get_clock = .ok clock) (hopen : clock.is_open = false) :
    accountQueries (place_order c).2 = 0 ∧
    ∀ acct : Except String Account,
      place_order
        { get_clock := c.get_clock, get_account := acct,
          submit_order := c.submit_order } = place_order c := by
  constructor
  · rw [place_order_closed c clock hclock hopen]
    simp [accountQueries]
  · intro acct
    rw [place_order_closed c clock hclock hopen]
    exact place_order_closed _ clock hclock hopen

/-- Witness for C10: clock closed; swapping the account behaviour for a
raising one leaves the cycle unchanged. -/
theorem C10_witness :
    brokerClosed.get_clock = .ok clockClosed ∧
    clockClosed.is_open = false ∧
    (accountQueries (place_order brokerClosed).2 = 0 ∧
     place_order
       { get_clock := brokerClosed.get_clock,
         get_account := .error "account query failed",
         submit_order := brokerClosed.submit_order } = place_order brokerClosed) := by
  have h := C10_no_account_query_when_closed brokerClosed clockClosed rfl rfl
  exact ⟨rfl, rfl, h.1, h.2 (.error "account query failed")⟩

end DCA
